import Mathlib

/-!
Shallow embedding of the HR recruitment pipeline (withrein/bank).

Sources embedded here:
* `src/utils.py` — text heuristics used by the agents;
* `src/models.py` — the typed data model (pydantic records become structures;
  floats become `ℚ`, `Optional[T]` becomes `Option T`);
* `src/config.py` — scoring weights, shortlisting parameters, keyword tables;
* `src/agents/*.py` — the five stage agents' pure logic.  Each LLM call is
  modelled by an oracle parameter holding the already-parsed outcome of the
  call (`none` = call failure / unparsable JSON, which the Python code turns
  into the documented fallback); file I/O and the clock are likewise passed
  in as parameters.  Python `float` arithmetic is modelled over `ℚ`.
* `src/workflow.py` — the fixed pipeline ordering.
-/

namespace HRPipeline

/-! ### Character classes and lowercasing

The detectors count Cyrillic code points (U+0400–U+04FF) and Python
`char.isalpha() and ord(char) < 256` characters, and lowercase text with
`str.lower()`.  `isLatin1Alpha` enumerates the alphabetic characters of the
Latin-1 range exactly as Python's `str.isalpha` classifies them.
`toLowerChar` models `str.lower()` on the character ranges the detectors can
ever observe (ASCII, Latin-1 and the Cyrillic block); elsewhere it is the
identity. -/

def isCyrillicChar (c : Char) : Bool :=
  decide (0x400 ≤ c.toNat ∧ c.toNat ≤ 0x4FF)

def isLatin1Alpha (c : Char) : Bool :=
  decide ((65 ≤ c.toNat ∧ c.toNat ≤ 90) ∨ (97 ≤ c.toNat ∧ c.toNat ≤ 122) ∨
    c.toNat = 0xAA ∨ c.toNat = 0xB5 ∨ c.toNat = 0xBA ∨
    (0xC0 ≤ c.toNat ∧ c.toNat ≤ 0xD6) ∨ (0xD8 ≤ c.toNat ∧ c.toNat ≤ 0xF6) ∨
    (0xF8 ≤ c.toNat ∧ c.toNat ≤ 0xFF))

def toLowerChar (c : Char) : Char :=
  if 65 ≤ c.toNat ∧ c.toNat ≤ 90 then Char.ofNat (c.toNat + 32)
  else if 0xC0 ≤ c.toNat ∧ c.toNat ≤ 0xD6 then Char.ofNat (c.toNat + 32)
  else if 0xD8 ≤ c.toNat ∧ c.toNat ≤ 0xDE then Char.ofNat (c.toNat + 32)
  else if 0x400 ≤ c.toNat ∧ c.toNat ≤ 0x40F then Char.ofNat (c.toNat + 80)
  else if 0x410 ≤ c.toNat ∧ c.toNat ≤ 0x42F then Char.ofNat (c.toNat + 32)
  else c

def lowerChars (t : List Char) : List Char := t.map toLowerChar

def countCyrillic (t : List Char) : Nat := t.countP isCyrillicChar

def countLatin (t : List Char) : Nat := t.countP isLatin1Alpha

/-- Python's substring test `pat in text`: `startsWithChars pat t` is
`t.startswith(pat)`. -/
def startsWithChars : List Char → List Char → Bool
  | [], _ => true
  | _ :: _, [] => false
  | p :: ps, c :: cs => p == c && startsWithChars ps cs

def containsChars (pat : List Char) : List Char → Bool
  | [] => startsWithChars pat []
  | c :: cs => startsWithChars pat (c :: cs) || containsChars pat cs

/-- `Config.MONGOLIAN_KEYWORDS` (src/config.py lines 98–105), in dict order:
education, experience, skills, languages, certifications, contact. -/
def mongolianKeywordLists : List (List String) :=
  [ ["сургууль", "их сургууль", "коллеж", "университет", "боловсрол", "диплом", "зэрэг"],
    ["ажлын туршлага", "туршлага", "ажил", "албан тушаал", "компани", "байгууллага"],
    ["чадвар", "ур чадвар", "мэдлэг", "технологи", "хэрэгсэл", "програм"],
    ["хэл", "хэлний чадвар", "англи хэл", "монгол хэл", "орос хэл", "хятад хэл"],
    ["гэрчилгээ", "сертификат", "мэргэшил", "зэрэг цол"],
    ["холбоо барих", "утас", "имэйл", "хаяг", "байршил"] ]

/-- `sum(1 for keyword_list in keywords.values() for keyword in keyword_list
if keyword in text)` — the keyword-hit count shared by all the detectors. -/
def mongolianKeywordHits (text : List Char) : Nat :=
  (mongolianKeywordLists.map
    (fun kws => kws.countP (fun kw => containsChars kw.toList text))).sum

/-! ### Data model (src/models.py)

`education` and `work_experience` are lists of loosely-typed dicts in the
source; no claim inspects their internal structure, so each record is
modelled by its rendered string (`str(edu)`), which is exactly how the
scoring agent consumes them. -/

structure ParsedCV where
  name : String
  email : Option String
  phone : Option String
  location : Option String
  current_role : Option String
  experience_years : Option Nat
  skills : List String
  education : List String
  certifications : List String
  work_experience : List String
  languages : List String
  summary : Option String
  raw_text : String
  file_name : String
  deriving DecidableEq, Repr

structure JobDescription where
  title : String
  company : String
  location : Option String
  required_skills : List String
  preferred_skills : List String
  min_experience : Option Nat
  education_requirements : List String
  job_type : Option String
  salary_range : Option String
  description : String
  responsibilities : List String
  deriving DecidableEq, Repr

structure CandidateScore where
  candidate_name : String
  file_name : String
  skills_match_score : ℚ
  experience_score : ℚ
  education_score : ℚ
  overall_score : ℚ
  matched_skills : List String
  missing_skills : List String
  strengths : List String
  weaknesses : List String
  recommendation : String
  reasoning : String
  deriving DecidableEq, Repr

structure InterviewQuestion where
  question : String
  category : String
  difficulty : String
  expected_answer_points : List String
  deriving DecidableEq, Repr

structure CandidateQuestions where
  candidate_name : String
  job_title : String
  technical_questions : List InterviewQuestion
  behavioral_questions : List InterviewQuestion
  role_specific_questions : List InterviewQuestion
  total_questions : Nat
  deriving DecidableEq, Repr

structure EmailDraft where
  recipient_name : String
  recipient_email : String
  email_type : String
  subject : String
  body : String
  job_title : String
  company_name : String
  interview_date : Option String
  interview_time : Option String
  deriving DecidableEq, Repr

/-- `AgentState` (src/models.py lines 112–127).  `interview_questions` is a
Python dict keyed by candidate name, modelled as the association list in
insertion order. -/
structure AgentState where
  job_description : Option JobDescription
  cv_files : List String
  parsed_cvs : List ParsedCV
  candidate_scores : List CandidateScore
  shortlisted_candidates : List CandidateScore
  interview_questions : List (String × CandidateQuestions)
  email_drafts : List EmailDraft
  current_step : String
  errors : List String
  processing_status : String
  deriving DecidableEq, Repr

/-! ### Language detectors

Four near-identical detectors exist in the source; they differ in which text
they inspect, whether counting happens on the lowered text, and the keyword
threshold (CV parsing: 3; scoring: 3; interview: 2; email: 2). -/

/-- `CVParserAgent.detect_language` (src/agents/cv_parser_agent.py lines
30–51).  Counts run on the original text; the keyword test lowercases both
sides (the keywords are already lowercase). -/
def detect_language (text : String) : String :=
  if text.toList.isEmpty then "en"
  else
    let chars := text.toList
    let cyrillicCount := countCyrillic chars
    let latinCount := countLatin chars
    let totalAlpha := cyrillicCount + latinCount
    if 0 < totalAlpha ∧ ((cyrillicCount : ℚ) / (totalAlpha : ℚ) > 3 / 10) then "mn"
    else if 3 ≤ mongolianKeywordHits (lowerChars chars) then "mn"
    else "en"

/-- `ScoringAgent.detect_cv_language` (src/agents/scoring_agent.py lines
30–46).  The raw text is lowercased first (`parsed_cv.raw_text.lower()`),
then characters are counted and keywords matched; threshold is 3. -/
def detect_cv_language (parsed_cv : ParsedCV) : String :=
  let text := lowerChars parsed_cv.raw_text.toList
  let cyrillicCount := countCyrillic text
  let latinCount := countLatin text
  let totalAlpha := cyrillicCount + latinCount
  if 0 < totalAlpha ∧ ((cyrillicCount : ℚ) / (totalAlpha : ℚ) > 3 / 10) then "mn"
  else if 3 ≤ mongolianKeywordHits text then "mn"
  else "en"

/-- The lowered `f"{title} {company} {description}"` job text inspected by the
interview and email detectors. -/
def jobTextOf (jd : JobDescription) : List Char :=
  lowerChars (jd.title ++ " " ++ jd.company ++ " " ++ jd.description).toList

/-- `InterviewAgent.detect_language_preference` (src/agents/interview_agent.py
lines 28–45); threshold 2.  The candidate argument is unused, as in the
source. -/
def interviewDetectLanguagePreference (_candidate : CandidateScore)
    (jd : JobDescription) : String :=
  let jobText := jobTextOf jd
  let cyrillicCount := countCyrillic jobText
  let latinCount := countLatin jobText
  let totalAlpha := cyrillicCount + latinCount
  if 0 < totalAlpha ∧ ((cyrillicCount : ℚ) / (totalAlpha : ℚ) > 3 / 10) then "mn"
  else if 2 ≤ mongolianKeywordHits jobText then "mn"
  else "en"

/-- `EmailAgent.detect_language_preference` (src/agents/email_agent.py lines
29–46); textually identical to the interview detector, threshold 2. -/
def emailDetectLanguagePreference (_candidate : CandidateScore)
    (jd : JobDescription) : String :=
  let jobText := jobTextOf jd
  let cyrillicCount := countCyrillic jobText
  let latinCount := countLatin jobText
  let totalAlpha := cyrillicCount + latinCount
  if 0 < totalAlpha ∧ ((cyrillicCount : ℚ) / (totalAlpha : ℚ) > 3 / 10) then "mn"
  else if 2 ≤ mongolianKeywordHits jobText then "mn"
  else "en"

/-! ### Scoring (src/agents/scoring_agent.py, src/config.py) -/

/-- `Config.SCORING_WEIGHTS` (src/config.py lines 107–113). -/
def scoringWeightExperience : ℚ := 40 / 100

def scoringWeightEducation : ℚ := 25 / 100

def scoringWeightSkills : ℚ := 25 / 100

def scoringWeightOther : ℚ := 10 / 100

/-- The overall-score combination of `ScoringAgent.score_candidate`
(src/agents/scoring_agent.py lines 64–73): the weighted sum of the four
component scores, capped at 100. -/
def overallScoreOf (skills_match_score experience_score education_score
    cultural_fit_score : ℚ) : ℚ :=
  min (skills_match_score * scoringWeightSkills +
       experience_score * scoringWeightExperience +
       education_score * scoringWeightEducation +
       cultural_fit_score * scoringWeightOther) 100

/-! ### Shortlisting (src/agents/shortlisting_agent.py)

Python's `list.sort(key=lambda x: x.overall_score, reverse=True)` is a stable
descending sort, which is modelled by Mathlib's stable `List.insertionSort`
under the relation "comes first when the overall score is at least as
large". -/

def scoreGE (a b : CandidateScore) : Prop := b.overall_score ≤ a.overall_score

instance : DecidableRel scoreGE := fun a b =>
  inferInstanceAs (Decidable (b.overall_score ≤ a.overall_score))

instance : IsTotal CandidateScore scoreGE :=
  ⟨fun a b => le_total b.overall_score a.overall_score⟩

instance : IsTrans CandidateScore scoreGE :=
  ⟨fun _ _ _ h h' => le_trans h' h⟩

def sortByScoreDesc (l : List CandidateScore) : List CandidateScore :=
  l.insertionSort scoreGE

/-- The two shortlisting parameters, read from `Config` at call time
(`Config.MAX_CANDIDATES_TO_SHORTLIST`, `Config.MINIMUM_SCORE_THRESHOLD`). -/
structure ShortlistConfig where
  maxCandidates : Nat
  minScoreThreshold : ℚ
  deriving DecidableEq, Repr

/-- The default configuration values (src/config.py lines 12–13). -/
def defaultShortlistConfig : ShortlistConfig := ⟨5, 60⟩

/-- `ShortlistingAgent.shortlist_candidates` (src/agents/shortlisting_agent.py
lines 13–44): filter to scores meeting the threshold, fall back to the whole
list when the filter is empty, sort descending, take the top N. -/
def shortlist_candidates (cfg : ShortlistConfig)
    (candidate_scores : List CandidateScore) : List CandidateScore :=
  if candidate_scores.isEmpty then []
  else
    let qualified := candidate_scores.filter
      (fun c => cfg.minScoreThreshold ≤ c.overall_score)
    let pool := if qualified.isEmpty then candidate_scores else qualified
    (sortByScoreDesc pool).take cfg.maxCandidates

/-- Whether `shortlist_candidates` takes the documented fallback branch and
prints its "No candidates meet minimum score threshold" warning
(src/agents/shortlisting_agent.py lines 31–34). -/
def shortlistWarned (cfg : ShortlistConfig)
    (candidate_scores : List CandidateScore) : Bool :=
  !candidate_scores.isEmpty &&
    (candidate_scores.filter
      (fun c => cfg.minScoreThreshold ≤ c.overall_score)).isEmpty

/-! ### Interview question generation (src/agents/interview_agent.py)

A question oracle gives, per category, the outcome of the LLM call plus JSON
parse: `some qs` is the successfully parsed list (entries lacking a
`question` key already dropped), `none` is a call failure or JSON error. -/

abbrev QuestionOracle := String → Option (List InterviewQuestion)

/-- `InterviewAgent._get_fallback_questions` (src/agents/interview_agent.py
lines 417–454): one static question per category. -/
def fallbackQuestions (category : String) : List InterviewQuestion :=
  if category = "technical" then
    [⟨"Can you walk me through your approach to solving a complex technical problem?",
      "technical", "medium",
      ["Problem analysis", "Solution design", "Implementation", "Testing"]⟩]
  else if category = "behavioral" then
    [⟨"Tell me about a time when you had to work with a difficult team member.",
      "behavioral", "medium",
      ["Situation description", "Actions taken", "Outcome", "Lessons learned"]⟩]
  else if category = "role-specific" then
    [⟨"What interests you most about this particular role?",
      "role-specific", "easy",
      ["Role understanding", "Personal motivation", "Alignment with skills"]⟩]
  else if category = "general" then
    [⟨"Where do you see yourself in 5 years?",
      "general", "easy",
      ["Career vision", "Growth mindset", "Alignment with company"]⟩]
  else []

/-- `InterviewAgent._get_questions_from_llm` (src/agents/interview_agent.py
lines 375–415): parsed questions on success, the static fallback on
failure. -/
def getQuestionsFromLLM (oracle : QuestionOracle) (category : String) :
    List InterviewQuestion :=
  match oracle category with
  | some qs => qs
  | none => fallbackQuestions category

/-- `InterviewAgent.generate_questions_for_candidate`
(src/agents/interview_agent.py lines 47–90): four per-category generations;
`total_questions` sums all four lists while only three are stored. -/
def generate_questions_for_candidate (oracle : QuestionOracle)
    (candidate : CandidateScore) (jd : JobDescription) : CandidateQuestions :=
  let technical_questions := getQuestionsFromLLM oracle "technical"
  let behavioral_questions := getQuestionsFromLLM oracle "behavioral"
  let role_specific_questions := getQuestionsFromLLM oracle "role-specific"
  let general_questions := getQuestionsFromLLM oracle "general"
  let total_questions := technical_questions.length + behavioral_questions.length +
    role_specific_questions.length + general_questions.length
  { candidate_name := candidate.candidate_name
    job_title := jd.title
    technical_questions := technical_questions
    behavioral_questions := behavioral_questions
    role_specific_questions := role_specific_questions
    total_questions := total_questions }

/-- `InterviewAgent.generate_questions_for_all_candidates`
(src/agents/interview_agent.py lines 456–474); the oracle is additionally
keyed by candidate name because each candidate gets its own LLM calls. -/
def generate_questions_for_all_candidates (oracle : String → QuestionOracle)
    (shortlisted : List CandidateScore) (jd : JobDescription) :
    List (String × CandidateQuestions) :=
  shortlisted.map (fun c =>
    (c.candidate_name, generate_questions_for_candidate (oracle c.candidate_name) c jd))

/-! ### Email drafting (src/agents/email_agent.py)

The email oracle returns, per (email type, candidate), the outcome of the LLM
call and `_parse_email_content`: `some (subject, body)` on a completed call
(an empty subject means the parse found none, triggering the template
subject), `none` for a raised exception, which the code turns into the fixed
fallback template.  The suggested interview date
(`datetime.now() + timedelta(days=7)`) is a clock value passed in as a
parameter. -/

abbrev EmailOracle := String → CandidateScore → Option (String × String)

/-- `EmailAgent._get_candidate_email` (src/agents/email_agent.py lines
519–523): `candidate_name.lower().replace(' ', '.') + "@example.com"`. -/
def getCandidateEmail (candidate : CandidateScore) : String :=
  String.mk ((lowerChars candidate.candidate_name.toList).map
    (fun c => if c = ' ' then '.' else c)) ++ "@example.com"

/-- `Config.EMAIL_LANGUAGES` template subjects (src/config.py lines 116–127),
with the `str.format` interpolation applied. -/
def templateSubject (language : String) (email_type : String)
    (jd : JobDescription) : String :=
  if language = "mn" then
    if email_type = "interview_invitation" then
      jd.company ++ "-д " ++ jd.title ++ " албан тушаалд ярилцлагад урих"
    else if email_type = "rejection" then jd.company ++ "-ээс хариу"
    else "Таны өргөдлийг хүлээн авлаа"
  else
    if email_type = "interview_invitation" then
      "Interview Invitation - " ++ jd.title ++ " at " ++ jd.company
    else if email_type = "rejection" then
      "Application Update from " ++ jd.company
    else "Application Received - " ++ jd.company

/-- The fallback subject of `EmailAgent._create_fallback_email`
(src/agents/email_agent.py lines 529–566). -/
def fallbackSubject (language : String) (email_type : String)
    (jd : JobDescription) : String :=
  if language = "mn" then
    if email_type = "interview_invitation" then
      jd.company ++ "-д " ++ jd.title ++ " албан тушаалд ярилцлагад урих"
    else if email_type = "rejection" then jd.company ++ "-ээс хариу"
    else if email_type = "follow_up" then
      "Нэмэлт мэдээлэл хэрэгтэй - " ++ jd.title
    else "Таны өргөдлийг хүлээн авлаа - " ++ jd.title
  else
    if email_type = "interview_invitation" then
      "Interview Invitation - " ++ jd.title
    else if email_type = "rejection" then "Application Update - " ++ jd.title
    else if email_type = "follow_up" then
      "Additional Information Required - " ++ jd.title
    else "Application Received - " ++ jd.title

/-- The fallback body of `EmailAgent._create_fallback_email`
(src/agents/email_agent.py lines 529–566). -/
def fallbackBody (language : String) (email_type : String)
    (candidate : CandidateScore) (jd : JobDescription) : String :=
  if language = "mn" then
    if email_type = "interview_invitation" then
      "Эрхэм " ++ candidate.candidate_name ++ ",\n\n" ++ jd.company ++
      " компанийн " ++ jd.title ++
      " албан тушаалд ярилцлагад урьж байна.\n\nЯрилцлагын дэлгэрэнгүй мэдээллийг удахгүй хүргэх болно.\n\nХүндэтгэсэн,\nХүний нөөцийн хэлтэс"
    else if email_type = "rejection" then
      "Эрхэм " ++ candidate.candidate_name ++ ",\n\n" ++ jd.company ++
      " компанийн " ++ jd.title ++
      " албан тушаалд сонирхол танилцуулсанд талархаж байна.\n\nСайтар судалсны үндсэн дээр бид бусад ажилтнуудтай үргэлжлүүлэх шийдвэр гаргалаа.\n\nИрээдүйд гарах боломжуудад хүсэлт гаргахыг урьж байна.\n\nХүндэтгэсэн,\nХүний нөөцийн хэлтэс"
    else if email_type = "follow_up" then
      "Эрхэм " ++ candidate.candidate_name ++ ",\n\n" ++ jd.title ++
      " албан тушаалд хүсэлт гаргасанд талархаж байна.\n\nТаны хүсэлтийг бүрэн хянахын тулд нэмэлт мэдээлэл хэрэгтэй байна.\n\nБоломжийн хугацаандаа холбогдоно уу.\n\nХүндэтгэсэн,\nХүний нөөцийн хэлтэс"
    else
      "Эрхэм " ++ candidate.candidate_name ++ ",\n\n" ++ jd.company ++
      " компанийн " ++ jd.title ++
      " албан тушаалд таны өргөдлийг хүлээн авлаа.\n\nТаны өргөдлийг хянаж, мэдээлэл хүргэх болно.\n\nСонирхол танилцуулсанд талархаж байна.\n\nХүндэтгэсэн,\nХүний нөөцийн хэлтэс"
  else
    if email_type = "interview_invitation" then
      "Dear " ++ candidate.candidate_name ++
      ",\n\nWe are pleased to invite you for an interview for the " ++ jd.title ++
      " position at " ++ jd.company ++
      ".\n\nWe will contact you soon with interview details.\n\nBest regards,\nHR Team"
    else if email_type = "rejection" then
      "Dear " ++ candidate.candidate_name ++
      ",\n\nThank you for your interest in the " ++ jd.title ++
      " position at " ++ jd.company ++
      ".\n\nAfter careful consideration, we have decided to move forward with other candidates.\n\nWe encourage you to apply for future opportunities.\n\nBest regards,\nHR Team"
    else if email_type = "follow_up" then
      "Dear " ++ candidate.candidate_name ++
      ",\n\nThank you for your application for the " ++ jd.title ++
      " position.\n\nWe need some additional information to complete our review.\n\nPlease contact us at your earliest convenience.\n\nBest regards,\nHR Team"
    else
      "Dear " ++ candidate.candidate_name ++
      ",\n\nWe have received your application for the " ++ jd.title ++
      " position at " ++ jd.company ++
      ".\n\nWe will review your application and contact you with updates.\n\nThank you for your interest.\n\nBest regards,\nHR Team"

/-- `EmailAgent._create_fallback_email` (src/agents/email_agent.py lines
525–578). -/
def createFallbackEmail (candidate : CandidateScore) (jd : JobDescription)
    (email_type : String) (language : String) : EmailDraft :=
  { recipient_name := candidate.candidate_name
    recipient_email := getCandidateEmail candidate
    email_type := email_type
    subject := fallbackSubject language email_type jd
    body := fallbackBody language email_type candidate jd
    job_title := jd.title
    company_name := jd.company
    interview_date := none
    interview_time := none }

/-- `EmailAgent.draft_interview_invitation` (src/agents/email_agent.py lines
48–157). -/
def draft_interview_invitation (oracle : EmailOracle) (suggestedDate : String)
    (candidate : CandidateScore) (jd : JobDescription) : EmailDraft :=
  let language := emailDetectLanguagePreference candidate jd
  match oracle "interview_invitation" candidate with
  | none => createFallbackEmail candidate jd "interview_invitation" language
  | some (subject, body) =>
    let subject :=
      if subject = "" then templateSubject language "interview_invitation" jd
      else subject
    { recipient_name := candidate.candidate_name
      recipient_email := getCandidateEmail candidate
      email_type := "interview_invitation"
      subject := subject
      body := body
      job_title := jd.title
      company_name := jd.company
      interview_date := some suggestedDate
      interview_time := some "[To be scheduled]" }

/-- `EmailAgent.draft_rejection_email` (src/agents/email_agent.py lines
159–262). -/
def draft_rejection_email (oracle : EmailOracle) (candidate : CandidateScore)
    (jd : JobDescription) : EmailDraft :=
  let language := emailDetectLanguagePreference candidate jd
  match oracle "rejection" candidate with
  | none => createFallbackEmail candidate jd "rejection" language
  | some (subject, body) =>
    let subject :=
      if subject = "" then templateSubject language "rejection" jd else subject
    { recipient_name := candidate.candidate_name
      recipient_email := getCandidateEmail candidate
      email_type := "rejection"
      subject := subject
      body := body
      job_title := jd.title
      company_name := jd.company
      interview_date := none
      interview_time := none }

/-- `EmailAgent.draft_acknowledgment_email` (src/agents/email_agent.py lines
362–455). -/
def draft_acknowledgment_email (oracle : EmailOracle)
    (candidate : CandidateScore) (jd : JobDescription) : EmailDraft :=
  let language := emailDetectLanguagePreference candidate jd
  match oracle "acknowledgment" candidate with
  | none => createFallbackEmail candidate jd "acknowledgment" language
  | some (subject, body) =>
    let subject :=
      if subject = "" then templateSubject language "acknowledgment" jd
      else subject
    { recipient_name := candidate.candidate_name
      recipient_email := getCandidateEmail candidate
      email_type := "acknowledgment"
      subject := subject
      body := body
      job_title := jd.title
      company_name := jd.company
      interview_date := none
      interview_time := none }

/-- `EmailAgent.draft_emails_for_all_candidates` (src/agents/email_agent.py
lines 580–621): invitations for the shortlisted, rejections for candidates
whose name is not among the shortlisted names, acknowledgments for all. -/
def draft_emails_for_all_candidates (oracle : EmailOracle)
    (suggestedDate : String) (all_candidates : List CandidateScore)
    (shortlisted_candidates : List CandidateScore) (jd : JobDescription) :
    List EmailDraft :=
  let shortlisted_names := shortlisted_candidates.map (·.candidate_name)
  (shortlisted_candidates.map
      (fun c => draft_interview_invitation oracle suggestedDate c jd)) ++
  ((all_candidates.filter
      (fun c => !shortlisted_names.contains c.candidate_name)).map
    (fun c => draft_rejection_email oracle c jd)) ++
  (all_candidates.map (fun c => draft_acknowledgment_email oracle c jd))

/-! ### Stage `process` methods and the pipeline (src/agents/*.py, src/workflow.py)

Each Python `process` first checks its required inputs, appending exactly one
error message and returning the otherwise-unchanged state when one is
missing; otherwise it sets `current_step`, writes its own output field and
sets the completed step tag.  The stage bodies' external effects (file
reading, LLM calls, the clock) are supplied by oracle parameters collected in
`PipelineOracles`. -/

structure PipelineOracles where
  /-- `CVParserAgent.parse_multiple_cvs`: file extraction + regex + LLM. -/
  parseCvs : List String → List ParsedCV
  /-- `ScoringAgent.score_all_candidates`: heuristics + LLM analysis. -/
  scoreAll : List ParsedCV → JobDescription → List CandidateScore
  /-- Question-oracle per candidate name (see `QuestionOracle`). -/
  questions : String → QuestionOracle
  /-- Email oracle (see `EmailOracle`). -/
  email : EmailOracle
  /-- The interview date string derived from `datetime.now()`. -/
  suggestedDate : String

/-- `CVParserAgent.process` (src/agents/cv_parser_agent.py lines 460–493). -/
def cvParserProcess (parseCvs : List String → List ParsedCV)
    (state : AgentState) : AgentState :=
  if state.cv_files.isEmpty then
    { state with errors := state.errors ++ ["No CV files provided for parsing"] }
  else
    let state := { state with current_step := "parsing_cvs" }
    let state := { state with parsed_cvs := parseCvs state.cv_files }
    { state with current_step := "cvs_parsed" }

/-- `ScoringAgent.process` (src/agents/scoring_agent.py lines 486–517). -/
def scoringProcess (scoreAll : List ParsedCV → JobDescription → List CandidateScore)
    (state : AgentState) : AgentState :=
  if state.parsed_cvs.isEmpty then
    { state with errors := state.errors ++ ["No parsed CVs available for scoring"] }
  else
    match state.job_description with
    | none =>
      { state with errors := state.errors ++ ["No job description available for scoring"] }
    | some jd =>
      let state := { state with current_step := "scoring_candidates" }
      let state := { state with candidate_scores := scoreAll state.parsed_cvs jd }
      { state with current_step := "candidates_scored" }

/-- `ShortlistingAgent.process` (src/agents/shortlisting_agent.py lines
46–69).  The agent re-reads `Config` at call time; the configuration is the
`cfg` parameter. -/
def shortlistingProcess (cfg : ShortlistConfig) (state : AgentState) :
    AgentState :=
  if state.candidate_scores.isEmpty then
    { state with errors := state.errors ++ ["No candidate scores available for shortlisting"] }
  else
    let state := { state with current_step := "shortlisting_candidates" }
    let state := { state with
      shortlisted_candidates := shortlist_candidates cfg state.candidate_scores }
    { state with current_step := "candidates_shortlisted" }

/-- `InterviewAgent.process` (src/agents/interview_agent.py lines 476–513). -/
def interviewProcess (questions : String → QuestionOracle)
    (state : AgentState) : AgentState :=
  if state.shortlisted_candidates.isEmpty then
    { state with errors := state.errors ++
        ["No shortlisted candidates available for interview question generation"] }
  else
    match state.job_description with
    | none =>
      { state with errors := state.errors ++
          ["No job description available for interview question generation"] }
    | some jd =>
      let state := { state with current_step := "generating_questions" }
      let state := { state with interview_questions :=
        generate_questions_for_all_candidates questions state.shortlisted_candidates jd }
      { state with current_step := "questions_generated" }

/-- `EmailAgent.process` (src/agents/email_agent.py lines 623–667). -/
def emailProcess (oracle : EmailOracle) (suggestedDate : String)
    (state : AgentState) : AgentState :=
  if state.candidate_scores.isEmpty then
    { state with errors := state.errors ++
        ["No candidate scores available for email drafting"] }
  else if state.shortlisted_candidates.isEmpty then
    { state with errors := state.errors ++
        ["No shortlisted candidates available for email drafting"] }
  else
    match state.job_description with
    | none =>
      { state with errors := state.errors ++
          ["No job description available for email drafting"] }
    | some jd =>
      let state := { state with current_step := "drafting_emails" }
      let state := { state with email_drafts :=
        (draft_emails_for_all_candidates oracle suggestedDate
          state.candidate_scores state.shortlisted_candidates jd) }
      { state with current_step := "emails_drafted" }

/-- `HRWorkflow._finalize_results_node` (src/workflow.py lines 102–179) with
the snapshot sink elided (saving never alters the pipeline-state
collections): marks the run completed. -/
def finalizeResults (state : AgentState) : AgentState :=
  let state := { state with processing_status := "completed" }
  { state with current_step := "completed" }

/-- The initial state built by `HRWorkflow.run_workflow` (src/workflow.py
lines 189–194): job and files populated, all collections empty. -/
def initialState (jd : JobDescription) (cv_files : List String) : AgentState :=
  { job_description := some jd
    cv_files := cv_files
    parsed_cvs := []
    candidate_scores := []
    shortlisted_candidates := []
    interview_questions := []
    email_drafts := []
    current_step := "start"
    errors := []
    processing_status := "running" }

/-- The states reached after each of the six pipeline stages, in the fixed
order wired by `HRWorkflow._create_workflow` (src/workflow.py lines 57–80):
parse → score → shortlist → generate questions → draft emails → finalize. -/
def pipelineStates (o : PipelineOracles) (cfg : ShortlistConfig)
    (init : AgentState) : List AgentState :=
  let s1 := cvParserProcess o.parseCvs init
  let s2 := scoringProcess o.scoreAll s1
  let s3 := shortlistingProcess cfg s2
  let s4 := interviewProcess o.questions s3
  let s5 := emailProcess o.email o.suggestedDate s4
  let s6 := finalizeResults s5
  [s1, s2, s3, s4, s5, s6]

/-! ### Claim-level predicates and concrete sample inputs -/

/-- The premise "the Cyrillic fraction among counted alphabetic characters is
at most 0.3" for a detector inspecting text `t`:
`cyr ≤ 3/10 * (cyr + latin)`, which for `cyr + latin > 0` is exactly
`cyr / (cyr + latin) ≤ 3/10` and is vacuously true when nothing is counted. -/
def cyrillicFractionAtMost03 (t : List Char) : Prop :=
  (countCyrillic t : ℚ) ≤ 3 / 10 * ((countCyrillic t : ℚ) + (countLatin t : ℚ))

/-- A concrete job posting used as sample input. -/
def sampleJob : JobDescription :=
  { title := "Engineer"
    company := "Acme"
    location := none
    required_skills := ["Python"]
    preferred_skills := []
    min_experience := some 3
    education_requirements := []
    job_type := none
    salary_range := none
    description := "Build things"
    responsibilities := [] }

/-- A concrete candidate score with all four component scores equal. -/
def mkScore (name file : String) (overall : ℚ) : CandidateScore :=
  { candidate_name := name
    file_name := file
    skills_match_score := overall
    experience_score := overall
    education_score := overall
    overall_score := overall
    matched_skills := []
    missing_skills := []
    strengths := []
    weaknesses := []
    recommendation := "Consider"
    reasoning := "sample" }

/-- Sample candidate, shortlisted in the duplicate-name scenario. -/
def scoreX1 : CandidateScore := mkScore "Ann Lee" "a.pdf" 80

/-- Sample candidate sharing `scoreX1`'s name but from a different file. -/
def scoreX2 : CandidateScore := mkScore "Ann Lee" "b.pdf" 40

/-- A concrete parsed CV. -/
def sampleCV : ParsedCV :=
  { name := "Ann Lee"
    email := none
    phone := none
    location := none
    current_role := none
    experience_years := some 5
    skills := ["Python"]
    education := []
    certifications := []
    work_experience := []
    languages := []
    summary := none
    raw_text := "Ann Lee. Python. 5 years experience"
    file_name := "a.pdf" }

/-- A parsed CV whose raw text has exactly two Mongolian keyword hits
(`туршлага`, `чадвар` — 14 Cyrillic letters) against 33 Latin letters, so the
Cyrillic fraction 14/47 stays at most 0.3. -/
def cvTwoHits : ParsedCV :=
  { sampleCV with
    raw_text := "туршлага чадвар aaaaaaaaaaaaaaaaaaaaaaaaaaaaaaaaa"
    file_name := "mixed.pdf" }

/-- Initial pipeline state for `sampleJob` with no CV files. -/
def stEmpty : AgentState := initialState sampleJob []

/-- State with parsed CVs but no job posting. -/
def stCVsNoJob : AgentState :=
  { stEmpty with parsed_cvs := [sampleCV], job_description := none }

/-- State with candidate scores but an empty shortlist. -/
def stScoresOnly : AgentState := { stEmpty with candidate_scores := [scoreX1] }

/-- State with scores and a shortlist but no job posting. -/
def stScoresShortNoJob : AgentState :=
  { stEmpty with
    candidate_scores := [scoreX1]
    shortlisted_candidates := [scoreX1]
    job_description := none }

/-- Pipeline oracles that make every external call fail or return nothing. -/
def trivialOracles : PipelineOracles :=
  { parseCvs := fun _ => []
    scoreAll := fun _ _ => []
    questions := fun _ _ => none
    email := fun _ _ => none
    suggestedDate := "Monday, January 1, 2026" }

/-- The shortlist-size invariant on a pipeline state: the shortlist is no
longer than `max_shortlist`, no longer than the scored list, and drawn from
the scored list. -/
def shortlistInvariant (cfg : ShortlistConfig) (s : AgentState) : Prop :=
  s.shortlisted_candidates.length ≤ cfg.maxCandidates ∧
  s.shortlisted_candidates.length ≤ s.candidate_scores.length ∧
  ∀ c ∈ s.shortlisted_candidates, c ∈ s.candidate_scores

/-! ## Lemmas about the stable descending sort and shortlisting -/

theorem mem_sortByScoreDesc {x : CandidateScore} {l : List CandidateScore} :
    x ∈ sortByScoreDesc l ↔ x ∈ l :=
  List.mem_insertionSort scoreGE

theorem length_sortByScoreDesc (l : List CandidateScore) :
    (sortByScoreDesc l).length = l.length :=
  List.length_insertionSort scoreGE l

theorem sorted_sortByScoreDesc (l : List CandidateScore) :
    (sortByScoreDesc l).Sorted scoreGE :=
  List.sorted_insertionSort scoreGE l

theorem sortByScoreDesc_eq_of_sorted {l : List CandidateScore}
    (h : l.Sorted scoreGE) : sortByScoreDesc l = l :=
  h.insertionSort_eq

theorem sorted_take {l : List CandidateScore} (h : l.Sorted scoreGE) (n : Nat) :
    (l.take n).Sorted scoreGE :=
  h.sublist (List.take_sublist n l)

theorem shortlist_candidates_nil (cfg : ShortlistConfig) :
    shortlist_candidates cfg [] = [] := rfl

theorem shortlist_candidates_ne_nil (cfg : ShortlistConfig)
    {scores : List CandidateScore} (h : ¬scores.isEmpty) :
    shortlist_candidates cfg scores =
      (sortByScoreDesc
        (if (scores.filter
              (fun c => decide (cfg.minScoreThreshold ≤ c.overall_score))).isEmpty
         then scores
         else scores.filter
              (fun c => decide (cfg.minScoreThreshold ≤ c.overall_score)))).take
        cfg.maxCandidates := by
  simp only [shortlist_candidates, if_neg h]

theorem shortlist_length_le_max (cfg : ShortlistConfig)
    (scores : List CandidateScore) :
    (shortlist_candidates cfg scores).length ≤ cfg.maxCandidates := by
  by_cases h : scores.isEmpty
  · simp [shortlist_candidates, h]
  · rw [shortlist_candidates_ne_nil cfg h]
    simp [List.length_take]

theorem shortlist_length_le (cfg : ShortlistConfig)
    (scores : List CandidateScore) :
    (shortlist_candidates cfg scores).length ≤ scores.length := by
  by_cases h : scores.isEmpty
  · simp [shortlist_candidates, h]
  · rw [shortlist_candidates_ne_nil cfg h, List.length_take]
    refine le_trans (min_le_right _ _) ?_
    rw [length_sortByScoreDesc]
    split
    · exact le_rfl
    · exact List.length_filter_le _ _

theorem shortlist_subset (cfg : ShortlistConfig)
    (scores : List CandidateScore) :
    ∀ c ∈ shortlist_candidates cfg scores, c ∈ scores := by
  intro c hc
  by_cases h : scores.isEmpty
  · simp [shortlist_candidates, h] at hc
  · rw [shortlist_candidates_ne_nil cfg h] at hc
    have hc' := mem_sortByScoreDesc.mp (List.mem_of_mem_take hc)
    revert hc'
    split
    · exact id
    · exact fun hm => (List.mem_filter.mp hm).1

theorem shortlist_idem (cfg : ShortlistConfig) (l : List CandidateScore) :
    shortlist_candidates cfg (shortlist_candidates cfg l) =
      shortlist_candidates cfg l := by
  by_cases hl : l.isEmpty
  · simp [shortlist_candidates, hl]
  set S := shortlist_candidates cfg l with hS
  by_cases hSe : S.isEmpty
  · rw [List.isEmpty_iff] at hSe
    rw [hSe]
    rfl
  have hSsorted : S.Sorted scoreGE := by
    rw [hS, shortlist_candidates_ne_nil cfg hl]
    exact sorted_take (sorted_sortByScoreDesc _) _
  have hSlen : S.length ≤ cfg.maxCandidates := shortlist_length_le_max cfg l
  have hfilter :
      S.filter (fun c => decide (cfg.minScoreThreshold ≤ c.overall_score)) = S ∨
      S.filter (fun c => decide (cfg.minScoreThreshold ≤ c.overall_score)) = [] := by
    by_cases hq : (l.filter
        (fun c => decide (cfg.minScoreThreshold ≤ c.overall_score))).isEmpty
    · right
      rw [List.isEmpty_iff, List.filter_eq_nil_iff] at hq
      rw [List.filter_eq_nil_iff]
      exact fun c hc => hq c (shortlist_subset cfg l c hc)
    · left
      rw [List.filter_eq_self]
      intro c hc
      rw [hS, shortlist_candidates_ne_nil cfg hl, if_neg hq] at hc
      exact (List.mem_filter.mp (mem_sortByScoreDesc.mp (List.mem_of_mem_take hc))).2
  have hpool :
      (if (S.filter
            (fun c => decide (cfg.minScoreThreshold ≤ c.overall_score))).isEmpty
       then S
       else S.filter
            (fun c => decide (cfg.minScoreThreshold ≤ c.overall_score))) = S := by
    rcases hfilter with hf | hf
    · rw [hf]
      split <;> rfl
    · rw [hf]
      rfl
  rw [shortlist_candidates_ne_nil cfg hSe, hpool,
    sortByScoreDesc_eq_of_sorted hSsorted, List.take_of_length_le hSlen]

/-! ## C2 — weighted overall score: bounds and monotonicity -/

/-- C2: the overall score produced from four component scores in `[0, 100]`
by the fixed weighted combination capped at 100 lies in `[0, 100]`, and it is
non-decreasing in each component score with the others held fixed. -/
theorem overall_score_bounds_and_monotone :
    (∀ s e ed cf : ℚ, 0 ≤ s → s ≤ 100 → 0 ≤ e → e ≤ 100 → 0 ≤ ed → ed ≤ 100 →
      0 ≤ cf → cf ≤ 100 →
      0 ≤ overallScoreOf s e ed cf ∧ overallScoreOf s e ed cf ≤ 100) ∧
    (∀ s s' e ed cf : ℚ, s ≤ s' →
      overallScoreOf s e ed cf ≤ overallScoreOf s' e ed cf) ∧
    (∀ s e e' ed cf : ℚ, e ≤ e' →
      overallScoreOf s e ed cf ≤ overallScoreOf s e' ed cf) ∧
    (∀ s e ed ed' cf : ℚ, ed ≤ ed' →
      overallScoreOf s e ed cf ≤ overallScoreOf s e ed' cf) ∧
    (∀ s e ed cf cf' : ℚ, cf ≤ cf' →
      overallScoreOf s e ed cf ≤ overallScoreOf s e ed cf') := by
  refine ⟨?_, ?_, ?_, ?_, ?_⟩
  · intro s e ed cf hs0 hs1 he0 he1 hed0 hed1 hcf0 hcf1
    unfold overallScoreOf scoringWeightSkills scoringWeightExperience
      scoringWeightEducation scoringWeightOther
    constructor
    · refine le_min (by nlinarith) (by norm_num)
    · exact min_le_right _ _
  · intro s s' e ed cf h
    unfold overallScoreOf scoringWeightSkills
    exact min_le_min (by nlinarith) le_rfl
  · intro s e e' ed cf h
    unfold overallScoreOf scoringWeightExperience
    exact min_le_min (by nlinarith) le_rfl
  · intro s e ed ed' cf h
    unfold overallScoreOf scoringWeightEducation
    exact min_le_min (by nlinarith) le_rfl
  · intro s e ed cf cf' h
    unfold overallScoreOf scoringWeightOther
    exact min_le_min (by nlinarith) le_rfl

/-- Witness for C2 at the concrete component values 80, 100, 40, 70. -/
theorem overall_score_bounds_and_monotone_witness :
    (0 ≤ overallScoreOf 80 100 40 70 ∧ overallScoreOf 80 100 40 70 ≤ 100) ∧
    overallScoreOf 80 100 40 70 ≤ overallScoreOf 90 100 40 70 := by
  constructor
  · exact overall_score_bounds_and_monotone.1 80 100 40 70 (by norm_num)
      (by norm_num) (by norm_num) (by norm_num) (by norm_num) (by norm_num)
      (by norm_num) (by norm_num)
  · exact overall_score_bounds_and_monotone.2.1 80 90 100 40 70 (by norm_num)

/-! ## C3 — fallback when nobody meets the threshold -/

/-- C3: on a non-empty score list in which every overall score is strictly
below the minimum threshold, shortlisting returns the full unfiltered list
sorted descending and truncated to `max_shortlist` (in particular non-empty
whenever `max_shortlist > 0`), and the fallback warning is recorded. -/
theorem shortlist_fallback_below_threshold (cfg : ShortlistConfig)
    (scores : List CandidateScore) (hne : scores ≠ [])
    (hbelow : ∀ c ∈ scores, c.overall_score < cfg.minScoreThreshold) :
    shortlist_candidates cfg scores =
      (sortByScoreDesc scores).take cfg.maxCandidates ∧
    shortlistWarned cfg scores = true ∧
    (0 < cfg.maxCandidates → shortlist_candidates cfg scores ≠ []) := by
  have hie : scores.isEmpty = false := by
    simp [List.isEmpty_iff, hne]
  have hfe : scores.filter
      (fun c => decide (cfg.minScoreThreshold ≤ c.overall_score)) = [] := by
    rw [List.filter_eq_nil_iff]
    intro c hc
    simpa using not_le.mpr (hbelow c hc)
  have hmain : shortlist_candidates cfg scores =
      (sortByScoreDesc scores).take cfg.maxCandidates := by
    rw [shortlist_candidates_ne_nil cfg (by simp [hie]), hfe]
    rfl
  refine ⟨hmain, ?_, ?_⟩
  · simp [shortlistWarned, hie, hfe]
  · intro hmax
    rw [hmain, ← List.length_pos, List.length_take, length_sortByScoreDesc]
    exact lt_min hmax (List.length_pos.mpr hne)

/-- Witness for C3: one candidate scoring 40 against threshold 60. -/
theorem shortlist_fallback_below_threshold_witness :
    shortlist_candidates defaultShortlistConfig [scoreX2] =
      (sortByScoreDesc [scoreX2]).take defaultShortlistConfig.maxCandidates ∧
    shortlistWarned defaultShortlistConfig [scoreX2] = true ∧
    (0 < defaultShortlistConfig.maxCandidates →
      shortlist_candidates defaultShortlistConfig [scoreX2] ≠ []) :=
  shortlist_fallback_below_threshold defaultShortlistConfig [scoreX2]
    (by decide) (by decide)

/-! ## C5 — idempotence of shortlisting -/

/-- C5: for any score list sorted descending by overall score, re-running
shortlisting on its own output with the same configuration returns the same
list. -/
theorem shortlisting_idempotent (cfg : ShortlistConfig)
    (l : List CandidateScore) (_hsorted : l.Sorted scoreGE) :
    shortlist_candidates cfg (shortlist_candidates cfg l) =
      shortlist_candidates cfg l :=
  shortlist_idem cfg l

/-- Witness for C5 on the sorted two-element list `[scoreX1, scoreX2]`. -/
theorem shortlisting_idempotent_witness :
    shortlist_candidates defaultShortlistConfig
        (shortlist_candidates defaultShortlistConfig [scoreX1, scoreX2]) =
      shortlist_candidates defaultShortlistConfig [scoreX1, scoreX2] :=
  shortlisting_idempotent defaultShortlistConfig [scoreX1, scoreX2]
    (by decide)

/-! ## Stage field-preservation lemmas -/

theorem cvParserProcess_scores_shortlist (f : List String → List ParsedCV)
    (s : AgentState) :
    (cvParserProcess f s).candidate_scores = s.candidate_scores ∧
    (cvParserProcess f s).shortlisted_candidates = s.shortlisted_candidates := by
  unfold cvParserProcess
  split <;> exact ⟨rfl, rfl⟩

theorem scoringProcess_shortlist
    (f : List ParsedCV → JobDescription → List CandidateScore) (s : AgentState) :
    (scoringProcess f s).shortlisted_candidates = s.shortlisted_candidates := by
  unfold scoringProcess
  split
  · rfl
  · split <;> rfl

theorem shortlistingProcess_scores (cfg : ShortlistConfig) (s : AgentState) :
    (shortlistingProcess cfg s).candidate_scores = s.candidate_scores := by
  unfold shortlistingProcess
  split <;> rfl

theorem shortlistingProcess_shortlist (cfg : ShortlistConfig) (s : AgentState) :
    (shortlistingProcess cfg s).shortlisted_candidates = s.shortlisted_candidates ∨
    (shortlistingProcess cfg s).shortlisted_candidates =
      shortlist_candidates cfg s.candidate_scores := by
  unfold shortlistingProcess
  split
  · exact Or.inl rfl
  · exact Or.inr rfl

theorem interviewProcess_scores_shortlist (q : String → QuestionOracle)
    (s : AgentState) :
    (interviewProcess q s).candidate_scores = s.candidate_scores ∧
    (interviewProcess q s).shortlisted_candidates = s.shortlisted_candidates := by
  unfold interviewProcess
  split
  · exact ⟨rfl, rfl⟩
  · split <;> exact ⟨rfl, rfl⟩

theorem emailProcess_scores_shortlist (o : EmailOracle) (d : String)
    (s : AgentState) :
    (emailProcess o d s).candidate_scores = s.candidate_scores ∧
    (emailProcess o d s).shortlisted_candidates = s.shortlisted_candidates := by
  unfold emailProcess
  split
  · exact ⟨rfl, rfl⟩
  · split
    · exact ⟨rfl, rfl⟩
    · split <;> exact ⟨rfl, rfl⟩

theorem finalizeResults_scores_shortlist (s : AgentState) :
    (finalizeResults s).candidate_scores = s.candidate_scores ∧
    (finalizeResults s).shortlisted_candidates = s.shortlisted_candidates :=
  ⟨rfl, rfl⟩

theorem shortlistInvariant_of_shortlist_nil (cfg : ShortlistConfig)
    {s : AgentState} (h : s.shortlisted_candidates = []) :
    shortlistInvariant cfg s := by
  refine ⟨by simp [h], by simp [h], by simp [h]⟩

theorem shortlistInvariant_congr (cfg : ShortlistConfig) {s s' : AgentState}
    (hsc : s'.candidate_scores = s.candidate_scores)
    (hsl : s'.shortlisted_candidates = s.shortlisted_candidates)
    (h : shortlistInvariant cfg s) : shortlistInvariant cfg s' := by
  unfold shortlistInvariant at h ⊢
  rw [hsc, hsl]
  exact h

/-! ## C4 — shortlist-size invariant -/

/-- C4: the shortlist produced by `shortlist_candidates` never exceeds
`max_shortlist` nor the scored list's length and is drawn from the scored
list, and the corresponding state invariant holds after every stage of the
pipeline started from a fresh initial state. -/
theorem shortlist_size_invariant :
    (∀ (cfg : ShortlistConfig) (scores : List CandidateScore),
      (shortlist_candidates cfg scores).length ≤ cfg.maxCandidates ∧
      (shortlist_candidates cfg scores).length ≤ scores.length ∧
      ∀ c ∈ shortlist_candidates cfg scores, c ∈ scores) ∧
    (∀ (o : PipelineOracles) (cfg : ShortlistConfig) (jd : JobDescription)
      (files : List String),
      ∀ s ∈ pipelineStates o cfg (initialState jd files),
        shortlistInvariant cfg s) := by
  constructor
  · intro cfg scores
    exact ⟨shortlist_length_le_max cfg scores, shortlist_length_le cfg scores,
      shortlist_subset cfg scores⟩
  · intro o cfg jd files s hs
    simp only [pipelineStates, List.mem_cons, List.mem_singleton,
      List.not_mem_nil, or_false] at hs
    have h1 : (cvParserProcess o.parseCvs (initialState jd files)).shortlisted_candidates = [] := by
      rw [(cvParserProcess_scores_shortlist _ _).2]
      rfl
    have inv1 : shortlistInvariant cfg (cvParserProcess o.parseCvs (initialState jd files)) :=
      shortlistInvariant_of_shortlist_nil cfg h1
    have h2 : (scoringProcess o.scoreAll
        (cvParserProcess o.parseCvs (initialState jd files))).shortlisted_candidates = [] := by
      rw [scoringProcess_shortlist]
      exact h1
    have inv2 : shortlistInvariant cfg (scoringProcess o.scoreAll
        (cvParserProcess o.parseCvs (initialState jd files))) :=
      shortlistInvariant_of_shortlist_nil cfg h2
    have inv3 : shortlistInvariant cfg (shortlistingProcess cfg (scoringProcess o.scoreAll
        (cvParserProcess o.parseCvs (initialState jd files)))) := by
      rcases shortlistingProcess_shortlist cfg (scoringProcess o.scoreAll
          (cvParserProcess o.parseCvs (initialState jd files))) with hl | hl
      · exact shortlistInvariant_of_shortlist_nil cfg (hl.trans h2)
      · refine ⟨?_, ?_, ?_⟩
        · rw [hl]
          exact shortlist_length_le_max cfg _
        · rw [hl, shortlistingProcess_scores]
          exact shortlist_length_le cfg _
        · rw [hl, shortlistingProcess_scores]
          exact shortlist_subset cfg _
    have inv4 : shortlistInvariant cfg (interviewProcess o.questions
        (shortlistingProcess cfg (scoringProcess o.scoreAll
          (cvParserProcess o.parseCvs (initialState jd files))))) :=
      shortlistInvariant_congr cfg (interviewProcess_scores_shortlist _ _).1
        (interviewProcess_scores_shortlist _ _).2 inv3
    have inv5 : shortlistInvariant cfg (emailProcess o.email o.suggestedDate
        (interviewProcess o.questions (shortlistingProcess cfg
          (scoringProcess o.scoreAll (cvParserProcess o.parseCvs
            (initialState jd files)))))) :=
      shortlistInvariant_congr cfg (emailProcess_scores_shortlist _ _ _).1
        (emailProcess_scores_shortlist _ _ _).2 inv4
    have inv6 : shortlistInvariant cfg (finalizeResults (emailProcess o.email
        o.suggestedDate (interviewProcess o.questions (shortlistingProcess cfg
          (scoringProcess o.scoreAll (cvParserProcess o.parseCvs
            (initialState jd files))))))) :=
      shortlistInvariant_congr cfg (finalizeResults_scores_shortlist _).1
        (finalizeResults_scores_shortlist _).2 inv5
    rcases hs with hs | hs | hs | hs | hs | hs <;> subst hs
    · exact inv1
    · exact inv2
    · exact inv3
    · exact inv4
    · exact inv5
    · exact inv6

/-- Witness for C4 at a concrete configuration, score list and pipeline
state. -/
theorem shortlist_size_invariant_witness :
    ((shortlist_candidates defaultShortlistConfig [scoreX1, scoreX2]).length ≤
        defaultShortlistConfig.maxCandidates ∧
      (shortlist_candidates defaultShortlistConfig [scoreX1, scoreX2]).length ≤
        [scoreX1, scoreX2].length ∧
      ∀ c ∈ shortlist_candidates defaultShortlistConfig [scoreX1, scoreX2],
        c ∈ [scoreX1, scoreX2]) ∧
    shortlistInvariant defaultShortlistConfig
      (cvParserProcess trivialOracles.parseCvs (initialState sampleJob [])) := by
  constructor
  · exact shortlist_size_invariant.1 defaultShortlistConfig [scoreX1, scoreX2]
  · exact shortlist_size_invariant.2 trivialOracles defaultShortlistConfig
      sampleJob [] _ (by simp [pipelineStates])

/-! ## C1 — every stage is total; a missing input only appends one error -/

/-- C1: each stage's `process` is total, and whenever a required input is
missing (no CV files for parsing; no parsed CVs or no job posting for
scoring; no scores for shortlisting; no shortlisted candidates or no job
posting for question generation; no scores, no shortlisted candidates or no
job posting for email drafting) it appends exactly one new entry to `errors`
and returns the state with every other field unchanged. -/
theorem stage_missing_input_appends_one_error :
    (∀ (f : List String → List ParsedCV) (s : AgentState), s.cv_files = [] →
      cvParserProcess f s =
        { s with errors := s.errors ++ ["No CV files provided for parsing"] }) ∧
    (∀ (f : List ParsedCV → JobDescription → List CandidateScore)
      (s : AgentState), s.parsed_cvs = [] →
      scoringProcess f s =
        { s with errors := s.errors ++ ["No parsed CVs available for scoring"] }) ∧
    (∀ (f : List ParsedCV → JobDescription → List CandidateScore)
      (s : AgentState), s.parsed_cvs ≠ [] → s.job_description = none →
      scoringProcess f s =
        { s with errors := s.errors ++ ["No job description available for scoring"] }) ∧
    (∀ (cfg : ShortlistConfig) (s : AgentState), s.candidate_scores = [] →
      shortlistingProcess cfg s =
        { s with errors := s.errors ++ ["No candidate scores available for shortlisting"] }) ∧
    (∀ (q : String → QuestionOracle) (s : AgentState),
      s.shortlisted_candidates = [] →
      interviewProcess q s =
        { s with errors := s.errors ++
            ["No shortlisted candidates available for interview question generation"] }) ∧
    (∀ (q : String → QuestionOracle) (s : AgentState),
      s.shortlisted_candidates ≠ [] → s.job_description = none →
      interviewProcess q s =
        { s with errors := s.errors ++
            ["No job description available for interview question generation"] }) ∧
    (∀ (o : EmailOracle) (d : String) (s : AgentState),
      s.candidate_scores = [] →
      emailProcess o d s =
        { s with errors := s.errors ++
            ["No candidate scores available for email drafting"] }) ∧
    (∀ (o : EmailOracle) (d : String) (s : AgentState),
      s.candidate_scores ≠ [] → s.shortlisted_candidates = [] →
      emailProcess o d s =
        { s with errors := s.errors ++
            ["No shortlisted candidates available for email drafting"] }) ∧
    (∀ (o : EmailOracle) (d : String) (s : AgentState),
      s.candidate_scores ≠ [] → s.shortlisted_candidates ≠ [] →
      s.job_description = none →
      emailProcess o d s =
        { s with errors := s.errors ++
            ["No job description available for email drafting"] }) := by
  refine ⟨?_, ?_, ?_, ?_, ?_, ?_, ?_, ?_, ?_⟩
  · intro f s h
    simp [cvParserProcess, h]
  · intro f s h
    simp [scoringProcess, h]
  · intro f s h h'
    simp only [scoringProcess, List.isEmpty_iff, h', if_neg h]
  · intro cfg s h
    simp [shortlistingProcess, h]
  · intro q s h
    simp [interviewProcess, h]
  · intro q s h h'
    simp only [interviewProcess, List.isEmpty_iff, h', if_neg h]
  · intro o d s h
    simp [emailProcess, h]
  · intro o d s h h'
    simp [emailProcess, List.isEmpty_iff, h', if_neg h]
  · intro o d s h h' h''
    simp only [emailProcess, List.isEmpty_iff, h'', if_neg h, if_neg h']

/-- Witness for C1: the guard branches evaluated on concrete states. -/
theorem stage_missing_input_appends_one_error_witness :
    cvParserProcess trivialOracles.parseCvs stEmpty =
      { stEmpty with errors := stEmpty.errors ++ ["No CV files provided for parsing"] } ∧
    scoringProcess trivialOracles.scoreAll stEmpty =
      { stEmpty with errors := stEmpty.errors ++ ["No parsed CVs available for scoring"] } ∧
    scoringProcess trivialOracles.scoreAll stCVsNoJob =
      { stCVsNoJob with errors := stCVsNoJob.errors ++ ["No job description available for scoring"] } ∧
    shortlistingProcess defaultShortlistConfig stEmpty =
      { stEmpty with errors := stEmpty.errors ++ ["No candidate scores available for shortlisting"] } ∧
    interviewProcess trivialOracles.questions stEmpty =
      { stEmpty with errors := stEmpty.errors ++
          ["No shortlisted candidates available for interview question generation"] } ∧
    interviewProcess trivialOracles.questions stScoresShortNoJob =
      { stScoresShortNoJob with errors := stScoresShortNoJob.errors ++
          ["No job description available for interview question generation"] } ∧
    emailProcess trivialOracles.email trivialOracles.suggestedDate stEmpty =
      { stEmpty with errors := stEmpty.errors ++
          ["No candidate scores available for email drafting"] } ∧
    emailProcess trivialOracles.email trivialOracles.suggestedDate stScoresOnly =
      { stScoresOnly with errors := stScoresOnly.errors ++
          ["No shortlisted candidates available for email drafting"] } ∧
    emailProcess trivialOracles.email trivialOracles.suggestedDate stScoresShortNoJob =
      { stScoresShortNoJob with errors := stScoresShortNoJob.errors ++
          ["No job description available for email drafting"] } :=
  ⟨stage_missing_input_appends_one_error.1 _ stEmpty rfl,
   stage_missing_input_appends_one_error.2.1 _ stEmpty rfl,
   stage_missing_input_appends_one_error.2.2.1 _ stCVsNoJob (by decide) rfl,
   stage_missing_input_appends_one_error.2.2.2.1 _ stEmpty rfl,
   stage_missing_input_appends_one_error.2.2.2.2.1 _ stEmpty rfl,
   stage_missing_input_appends_one_error.2.2.2.2.2.1 _ stScoresShortNoJob
     (by decide) rfl,
   stage_missing_input_appends_one_error.2.2.2.2.2.2.1 _ _ stEmpty rfl,
   stage_missing_input_appends_one_error.2.2.2.2.2.2.2.1 _ _ stScoresOnly
     (by decide) rfl,
   stage_missing_input_appends_one_error.2.2.2.2.2.2.2.2 _ _ stScoresShortNoJob
     (by decide) (by decide) rfl⟩

/-! ## C6 — total question count vs the three stored categories -/

/-- C6 counterexample: with every LLM call failing, each category yields its
single fallback question, the stored total is 4, yet the three stored
category lists only sum to 3 — refuting the claim that the stored total
equals the sum of the three stored lists. -/
theorem total_questions_three_sum_counterexample :
    (generate_questions_for_candidate (fun _ => none) scoreX1 sampleJob).total_questions ≠
      (generate_questions_for_candidate (fun _ => none) scoreX1 sampleJob).technical_questions.length +
      (generate_questions_for_candidate (fun _ => none) scoreX1 sampleJob).behavioral_questions.length +
      (generate_questions_for_candidate (fun _ => none) scoreX1 sampleJob).role_specific_questions.length := by
  decide

/-- C6 (amended): the stored total question count equals the sum of the
lengths of the three stored category lists plus the number of generated
general questions (which are not stored), computed at creation. -/
theorem total_questions_eq_sum_with_general :
    ∀ (oracle : QuestionOracle) (c : CandidateScore) (jd : JobDescription),
      (generate_questions_for_candidate oracle c jd).total_questions =
        (generate_questions_for_candidate oracle c jd).technical_questions.length +
        (generate_questions_for_candidate oracle c jd).behavioral_questions.length +
        (generate_questions_for_candidate oracle c jd).role_specific_questions.length +
        (getQuestionsFromLLM oracle "general").length := by
  intro oracle c jd
  rfl

/-! ## C7 — detector keyword thresholds below the Cyrillic-ratio cutoff -/

theorem ratio_guard_false {t : List Char} (h : cyrillicFractionAtMost03 t) :
    ¬(0 < countCyrillic t + countLatin t ∧
      ((countCyrillic t : ℚ) / ((countCyrillic t + countLatin t : Nat) : ℚ) >
        3 / 10)) := by
  rintro ⟨hpos, hgt⟩
  have htot : (0 : ℚ) < ((countCyrillic t + countLatin t : Nat) : ℚ) := by
    exact_mod_cast hpos
  rw [gt_iff_lt, lt_div_iff₀ htot] at hgt
  unfold cyrillicFractionAtMost03 at h
  push_cast at hgt h
  nlinarith

/-- C7 counterexample: the CV text `"туршлага чадвар"` padded with 33 Latin
letters has Cyrillic fraction 14/47 ≤ 0.3 and exactly 2 Mongolian keyword
hits, yet the scoring stage's detector returns "en" — refuting the claim
that the scoring detector answers "mn" whenever at least 2 keywords hit. -/
theorem scoring_detector_threshold_counterexample :
    cyrillicFractionAtMost03 (lowerChars cvTwoHits.raw_text.toList) ∧
    mongolianKeywordHits (lowerChars cvTwoHits.raw_text.toList) = 2 ∧
    detect_cv_language cvTwoHits = "en" := by
  have h14 : countCyrillic (lowerChars cvTwoHits.raw_text.toList) = 14 := by decide
  have h33 : countLatin (lowerChars cvTwoHits.raw_text.toList) = 33 := by decide
  have hhits : mongolianKeywordHits (lowerChars cvTwoHits.raw_text.toList) = 2 := by
    decide
  have hfrac : cyrillicFractionAtMost03 (lowerChars cvTwoHits.raw_text.toList) := by
    unfold cyrillicFractionAtMost03
    rw [h14, h33]
    norm_num
  refine ⟨hfrac, hhits, ?_⟩
  simp only [detect_cv_language]
  rw [if_neg (ratio_guard_false hfrac), if_neg (by omega)]

/-- C7 (amended): on any text whose Cyrillic fraction among counted
alphabetic characters is at most 0.3, the interview and email detectors
return "mn" exactly when at least 2 Mongolian keywords hit, while the
scoring detector requires at least 3 hits; each returns "en" otherwise. -/
theorem detector_keyword_thresholds :
    (∀ cv : ParsedCV, cyrillicFractionAtMost03 (lowerChars cv.raw_text.toList) →
      (detect_cv_language cv = "mn" ↔
        3 ≤ mongolianKeywordHits (lowerChars cv.raw_text.toList)) ∧
      (detect_cv_language cv = "en" ↔
        mongolianKeywordHits (lowerChars cv.raw_text.toList) < 3)) ∧
    (∀ (c : CandidateScore) (jd : JobDescription),
      cyrillicFractionAtMost03 (jobTextOf jd) →
      (interviewDetectLanguagePreference c jd = "mn" ↔
        2 ≤ mongolianKeywordHits (jobTextOf jd)) ∧
      (interviewDetectLanguagePreference c jd = "en" ↔
        mongolianKeywordHits (jobTextOf jd) < 2)) ∧
    (∀ (c : CandidateScore) (jd : JobDescription),
      cyrillicFractionAtMost03 (jobTextOf jd) →
      (emailDetectLanguagePreference c jd = "mn" ↔
        2 ≤ mongolianKeywordHits (jobTextOf jd)) ∧
      (emailDetectLanguagePreference c jd = "en" ↔
        mongolianKeywordHits (jobTextOf jd) < 2)) := by
  refine ⟨?_, ?_, ?_⟩
  · intro cv hfrac
    simp only [detect_cv_language]
    rw [if_neg (ratio_guard_false hfrac)]
    by_cases hk : 3 ≤ mongolianKeywordHits (lowerChars cv.raw_text.toList)
    · rw [if_pos hk]
      exact ⟨iff_of_true rfl hk, iff_of_false (by decide) (not_lt.mpr hk)⟩
    · rw [if_neg hk]
      exact ⟨iff_of_false (by decide) hk, iff_of_true rfl (not_le.mp hk)⟩
  · intro c jd hfrac
    simp only [interviewDetectLanguagePreference]
    rw [if_neg (ratio_guard_false hfrac)]
    by_cases hk : 2 ≤ mongolianKeywordHits (jobTextOf jd)
    · rw [if_pos hk]
      exact ⟨iff_of_true rfl hk, iff_of_false (by decide) (not_lt.mpr hk)⟩
    · rw [if_neg hk]
      exact ⟨iff_of_false (by decide) hk, iff_of_true rfl (not_le.mp hk)⟩
  · intro c jd hfrac
    simp only [emailDetectLanguagePreference]
    rw [if_neg (ratio_guard_false hfrac)]
    by_cases hk : 2 ≤ mongolianKeywordHits (jobTextOf jd)
    · rw [if_pos hk]
      exact ⟨iff_of_true rfl hk, iff_of_false (by decide) (not_lt.mpr hk)⟩
    · rw [if_neg hk]
      exact ⟨iff_of_false (by decide) hk, iff_of_true rfl (not_le.mp hk)⟩

/-- Witness for C7 (amended): the scoring detector stays at "en" on the
two-hit text, and the email/interview detectors answer "en" on the concrete
English job posting. -/
theorem detector_keyword_thresholds_witness :
    (detect_cv_language cvTwoHits = "en" ↔
      mongolianKeywordHits (lowerChars cvTwoHits.raw_text.toList) < 3) ∧
    (interviewDetectLanguagePreference scoreX1 sampleJob = "en" ↔
      mongolianKeywordHits (jobTextOf sampleJob) < 2) ∧
    (emailDetectLanguagePreference scoreX1 sampleJob = "en" ↔
      mongolianKeywordHits (jobTextOf sampleJob) < 2) := by
  have hfrac1 : cyrillicFractionAtMost03 (lowerChars cvTwoHits.raw_text.toList) := by
    unfold cyrillicFractionAtMost03
    rw [show countCyrillic (lowerChars cvTwoHits.raw_text.toList) = 14 by decide,
      show countLatin (lowerChars cvTwoHits.raw_text.toList) = 33 by decide]
    norm_num
  have hfrac2 : cyrillicFractionAtMost03 (jobTextOf sampleJob) := by
    unfold cyrillicFractionAtMost03
    rw [show countCyrillic (jobTextOf sampleJob) = 0 by decide,
      show countLatin (jobTextOf sampleJob) = 23 by decide]
    norm_num
  exact ⟨(detector_keyword_thresholds.1 cvTwoHits hfrac1).2,
    (detector_keyword_thresholds.2.1 scoreX1 sampleJob hfrac2).2,
    (detector_keyword_thresholds.2.2 scoreX1 sampleJob hfrac2).2⟩

/-! ## C9 — `detect_language` is pure and defaults to "en" -/

theorem toLowerChar_eq_self {c : Char} (h1 : isCyrillicChar c = false)
    (h2 : isLatin1Alpha c = false) : toLowerChar c = c := by
  have h1' := of_decide_eq_false h1
  have h2' := of_decide_eq_false h2
  unfold toLowerChar
  split_ifs with hA hB hC hD hE
  · exact absurd (Or.inl hA) h2'
  · exact absurd (Or.inr (Or.inr (Or.inr (Or.inr (Or.inr (Or.inl hB)))))) h2'
  · refine absurd (Or.inr (Or.inr (Or.inr (Or.inr (Or.inr (Or.inr
      (Or.inl ⟨hC.1, ?_⟩))))))) h2'
    omega
  · exact absurd ⟨hD.1, by omega⟩ h1'
  · exact absurd ⟨by omega, by omega⟩ h1'
  · rfl

theorem startsWithChars_subset :
    ∀ {pat t : List Char}, startsWithChars pat t = true → ∀ c ∈ pat, c ∈ t := by
  intro pat
  induction pat with
  | nil => intro t _ c hc; cases hc
  | cons p ps ih =>
    intro t h c hc
    cases t with
    | nil => cases h
    | cons a as =>
      rw [startsWithChars, Bool.and_eq_true] at h
      rcases List.mem_cons.mp hc with rfl | hc'
      · rw [eq_of_beq h.1]
        exact List.mem_cons_self a as
      · exact List.mem_cons_of_mem a (ih h.2 c hc')

theorem containsChars_subset :
    ∀ {pat t : List Char}, containsChars pat t = true → ∀ c ∈ pat, c ∈ t := by
  intro pat t
  induction t with
  | nil =>
    intro h c hc
    cases pat with
    | nil => cases hc
    | cons p ps => cases h
  | cons a as ih =>
    intro h c hc
    rw [containsChars, Bool.or_eq_true] at h
    rcases h with h | h
    · exact startsWithChars_subset h c hc
    · exact List.mem_cons_of_mem a (ih h c hc)

theorem keyword_lists_have_cyrillic :
    ∀ kws ∈ mongolianKeywordLists, ∀ kw ∈ kws,
      kw.toList.any isCyrillicChar = true := by
  decide

theorem mongolianKeywordHits_eq_zero {t : List Char}
    (h : ∀ c ∈ t, isCyrillicChar c = false) : mongolianKeywordHits t = 0 := by
  unfold mongolianKeywordHits
  rw [List.sum_eq_zero]
  intro n hn
  rw [List.mem_map] at hn
  obtain ⟨kws, hkws, rfl⟩ := hn
  rw [List.countP_eq_zero]
  intro kw hkw
  simp only [Bool.not_eq_true]
  by_contra hcontains
  rw [Bool.not_eq_false] at hcontains
  obtain ⟨c, hc, hcyr⟩ :=
    List.any_eq_true.mp (keyword_lists_have_cyrillic kws hkws kw hkw)
  have := h c (containsChars_subset hcontains c hc)
  rw [this] at hcyr
  cases hcyr

/-- C9: `detect_language` is a pure deterministic function — the same text
always yields the same tag — and any text containing no alphabetic character
(neither Cyrillic nor Latin-1 alphabetic) yields "en"; in particular the
empty string yields "en". -/
theorem detect_language_deterministic_and_default :
    (∀ text : String, detect_language text = detect_language text) ∧
    (∀ text : String,
      (∀ c ∈ text.toList, isCyrillicChar c = false ∧ isLatin1Alpha c = false) →
      detect_language text = "en") ∧
    detect_language "" = "en" := by
  refine ⟨fun _ => rfl, ?_, rfl⟩
  intro text hc
  have hcyr0 : countCyrillic text.toList = 0 :=
    List.countP_eq_zero.mpr (fun a ha => by simp [(hc a ha).1])
  have hlat0 : countLatin text.toList = 0 :=
    List.countP_eq_zero.mpr (fun a ha => by simp [(hc a ha).2])
  have hlower : lowerChars text.toList = text.toList := by
    unfold lowerChars
    rw [List.map_congr_left
      (fun a ha => toLowerChar_eq_self (hc a ha).1 (hc a ha).2)]
    exact List.map_id _
  have hhits : mongolianKeywordHits (lowerChars text.toList) = 0 := by
    rw [hlower]
    exact mongolianKeywordHits_eq_zero (fun a ha => (hc a ha).1)
  simp only [detect_language]
  by_cases he : text.toList.isEmpty
  · rw [if_pos he]
  · rw [if_neg he, if_neg ?hguard, if_neg ?hkw]
    case hguard =>
      rintro ⟨hpos, _⟩
      rw [hcyr0, hlat0] at hpos
      omega
    case hkw =>
      rw [hhits]
      omega

/-- Witness for C9 on the concrete digits-and-punctuation text "123 !?". -/
theorem detect_language_deterministic_and_default_witness :
    detect_language "123 !?" = "en" :=
  detect_language_deterministic_and_default.2.1 "123 !?" (by decide)

/-! ## C8 / C10 — email drafts per candidate -/

theorem draft_interview_invitation_fields (o : EmailOracle) (d : String)
    (c : CandidateScore) (jd : JobDescription) :
    (draft_interview_invitation o d c jd).recipient_name = c.candidate_name ∧
    (draft_interview_invitation o d c jd).email_type = "interview_invitation" := by
  unfold draft_interview_invitation
  rcases o "interview_invitation" c with _ | ⟨s, b⟩
  · exact ⟨rfl, rfl⟩
  · exact ⟨rfl, rfl⟩

theorem draft_rejection_email_fields (o : EmailOracle) (c : CandidateScore)
    (jd : JobDescription) :
    (draft_rejection_email o c jd).recipient_name = c.candidate_name ∧
    (draft_rejection_email o c jd).email_type = "rejection" := by
  unfold draft_rejection_email
  rcases o "rejection" c with _ | ⟨s, b⟩
  · exact ⟨rfl, rfl⟩
  · exact ⟨rfl, rfl⟩

theorem draft_acknowledgment_email_fields (o : EmailOracle)
    (c : CandidateScore) (jd : JobDescription) :
    (draft_acknowledgment_email o c jd).recipient_name = c.candidate_name ∧
    (draft_acknowledgment_email o c jd).email_type = "acknowledgment" := by
  unfold draft_acknowledgment_email
  rcases o "acknowledgment" c with _ | ⟨s, b⟩
  · exact ⟨rfl, rfl⟩
  · exact ⟨rfl, rfl⟩

theorem drafts_name_type_pairs (o : EmailOracle) (d : String)
    (all sl : List CandidateScore) (jd : JobDescription) :
    (draft_emails_for_all_candidates o d all sl jd).map
        (fun dr => (dr.recipient_name, dr.email_type)) =
      sl.map (fun c => (c.candidate_name, "interview_invitation")) ++
      (all.filter (fun c =>
        !(sl.map (fun x => x.candidate_name)).contains c.candidate_name)).map
        (fun c => (c.candidate_name, "rejection")) ++
      all.map (fun c => (c.candidate_name, "acknowledgment")) := by
  unfold draft_emails_for_all_candidates
  simp only [List.map_append, List.map_map, Function.comp]
  congr 1
  congr 1
  · exact List.map_congr_left (fun c _ => by
      simp only [Function.comp_apply]
      rw [(draft_interview_invitation_fields o d c jd).1,
        (draft_interview_invitation_fields o d c jd).2])
  · exact List.map_congr_left (fun c _ => by
      simp only [Function.comp_apply]
      rw [(draft_rejection_email_fields o c jd).1,
        (draft_rejection_email_fields o c jd).2])
  · exact List.map_congr_left (fun c _ => by
      simp only [Function.comp_apply]
      rw [(draft_acknowledgment_email_fields o c jd).1,
        (draft_acknowledgment_email_fields o c jd).2])

/-- C8 counterexample: with two scored candidates sharing the name
"Ann Lee" of whom only the first is shortlisted, the claimed per-candidate
draft inventory (one rejection for each candidate not an element of the
shortlist) fails: the non-shortlisted duplicate receives no rejection
draft. -/
theorem email_drafts_per_candidate_counterexample :
    (∀ c ∈ [scoreX1], c ∈ [scoreX1, scoreX2]) ∧
    (draft_emails_for_all_candidates (fun _ _ => none) "" [scoreX1, scoreX2]
        [scoreX1] sampleJob).map (fun dr => (dr.recipient_name, dr.email_type)) ≠
      [scoreX1].map (fun c => (c.candidate_name, "interview_invitation")) ++
      ([scoreX1, scoreX2].filter (fun c => !(decide (c ∈ [scoreX1])))).map
        (fun c => (c.candidate_name, "rejection")) ++
      [scoreX1, scoreX2].map (fun c => (c.candidate_name, "acknowledgment")) := by
  constructor
  · decide
  · decide

/-- C8 (amended): for every scored list and shortlisted sublist of it, email
drafting produces exactly one interview invitation per shortlisted
candidate, one rejection per scored candidate whose `candidate_name` is not
among the shortlisted candidates' names, one acknowledgment per scored
candidate, and no other drafts. -/
theorem email_drafts_per_candidate (o : EmailOracle) (d : String)
    (all sl : List CandidateScore) (jd : JobDescription)
    (_hsub : ∀ c ∈ sl, c ∈ all) :
    (draft_emails_for_all_candidates o d all sl jd).map
        (fun dr => (dr.recipient_name, dr.email_type)) =
      sl.map (fun c => (c.candidate_name, "interview_invitation")) ++
      (all.filter (fun c =>
        !(sl.map (fun x => x.candidate_name)).contains c.candidate_name)).map
        (fun c => (c.candidate_name, "rejection")) ++
      all.map (fun c => (c.candidate_name, "acknowledgment")) :=
  drafts_name_type_pairs o d all sl jd

/-- Witness for C8 (amended) on the concrete duplicate-name input. -/
theorem email_drafts_per_candidate_witness :
    (draft_emails_for_all_candidates (fun _ _ => none) "" [scoreX1, scoreX2]
        [scoreX1] sampleJob).map (fun dr => (dr.recipient_name, dr.email_type)) =
      [scoreX1].map (fun c => (c.candidate_name, "interview_invitation")) ++
      ([scoreX1, scoreX2].filter (fun c =>
        !([scoreX1].map (fun x => x.candidate_name)).contains c.candidate_name)).map
        (fun c => (c.candidate_name, "rejection")) ++
      [scoreX1, scoreX2].map (fun c => (c.candidate_name, "acknowledgment")) :=
  email_drafts_per_candidate (fun _ _ => none) "" [scoreX1, scoreX2] [scoreX1]
    sampleJob (by decide)

/-- C10: rejection-email selection is keyed solely by `candidate_name` — the
rejection drafts are exactly one per scored candidate whose name is absent
from the shortlisted names — and consequently, on the concrete input where
non-shortlisted `scoreX2` shares its name with shortlisted `scoreX1`, no
rejection draft at all is produced even though `scoreX2` is not
shortlisted. -/
theorem rejection_drafts_keyed_by_name :
    (∀ (o : EmailOracle) (d : String) (all sl : List CandidateScore)
      (jd : JobDescription),
      ((draft_emails_for_all_candidates o d all sl jd).filter
          (fun dr => decide (dr.email_type = "rejection"))).map
          (fun dr => dr.recipient_name) =
        (all.filter (fun c =>
          !(sl.map (fun x => x.candidate_name)).contains c.candidate_name)).map
          (fun c => c.candidate_name)) ∧
    ((draft_emails_for_all_candidates (fun _ _ => none) "" [scoreX1, scoreX2]
        [scoreX1] sampleJob).filter
        (fun dr => decide (dr.email_type = "rejection")) = [] ∧
      scoreX2 ∉ ([scoreX1] : List CandidateScore)) := by
  constructor
  · intro o d all sl jd
    unfold draft_emails_for_all_candidates
    rw [List.filter_append, List.filter_append]
    have h1 : (sl.map (fun c => draft_interview_invitation o d c jd)).filter
        (fun dr => decide (dr.email_type = "rejection")) = [] := by
      rw [List.filter_eq_nil_iff]
      intro dr hdr
      obtain ⟨c, _, rfl⟩ := List.mem_map.mp hdr
      simp [(draft_interview_invitation_fields o d c jd).2]
    have h3 : (all.map (fun c => draft_acknowledgment_email o c jd)).filter
        (fun dr => decide (dr.email_type = "rejection")) = [] := by
      rw [List.filter_eq_nil_iff]
      intro dr hdr
      obtain ⟨c, _, rfl⟩ := List.mem_map.mp hdr
      simp [(draft_acknowledgment_email_fields o c jd).2]
    have h2 : ((all.filter (fun c =>
        !(sl.map (fun x => x.candidate_name)).contains c.candidate_name)).map
          (fun c => draft_rejection_email o c jd)).filter
        (fun dr => decide (dr.email_type = "rejection")) =
        (all.filter (fun c =>
          !(sl.map (fun x => x.candidate_name)).contains c.candidate_name)).map
          (fun c => draft_rejection_email o c jd) := by
      rw [List.filter_eq_self]
      intro dr hdr
      obtain ⟨c, _, rfl⟩ := List.mem_map.mp hdr
      simp [(draft_rejection_email_fields o c jd).2]
    rw [h1, h2, h3, List.nil_append, List.append_nil, List.map_map]
    exact List.map_congr_left
      (fun c _ => (draft_rejection_email_fields o c jd).1)
  · exact ⟨by decide, by decide⟩

/-- Witness for C10: the name-keyed rejection characterization evaluated on a
concrete input with an empty shortlist. -/
theorem rejection_drafts_keyed_by_name_witness :
    ((draft_emails_for_all_candidates (fun _ _ => none) "" [scoreX1, scoreX2]
        [] sampleJob).filter
        (fun dr => decide (dr.email_type = "rejection"))).map
        (fun dr => dr.recipient_name) =
      (([scoreX1, scoreX2] : List CandidateScore).filter (fun c =>
        !(([] : List CandidateScore).map (fun x => x.candidate_name)).contains
          c.candidate_name)).map (fun c => c.candidate_name) :=
  rejection_drafts_keyed_by_name.1 (fun _ _ => none) "" [scoreX1, scoreX2] []
    sampleJob

end HRPipeline
